import Mathlib

/-!
Verification of the easy_hooks subscription engine.

This file embeds the core of the library — `Subscriber` (src/subscriber.ts),
`SubscriberMiddleware` (src/subscriber_middleware.ts) and the periodic retry
wrapper `timeoutWrapper` (src/hook_generators/periodic_hook.ts) — as
executable Lean definitions, and proves or refutes the frozen claims about
them.

Modelling conventions:

* Payload values (`Data`, `ErrorData`, `CompressedData`,
  `CompressedErrorData`) are all modelled as `Option Nat`; `none` is the
  JavaScript `null`.  The engine only moves these values around, so the
  concrete carrier type is irrelevant to every claim.
* A JavaScript `Map` is modelled by its insertion-ordered key list (for the
  reference-count maps) or an insertion-ordered association list (for the
  middleware registry).  `Map.set` on a fresh key appends; on an existing
  key it keeps the position.  `Map.delete` removes the key.
* The middleware instances stored in `subscriberMiddlewares` and in
  `activeSubscriberMiddleware` are the same JavaScript objects.  We model
  this aliasing with one association list `subscriberMiddlewares` holding
  the state and a key list `activeSubscriberMiddleware` holding references.
* User-supplied code (the middleware transforms, the fetch/stop functions
  and the observer callbacks) is opaque to the engine; we model each by the
  way it interacts with the engine (which sink calls it makes, whether it
  throws), supplied in an `Env`.
* JavaScript method-reference semantics: the source passes
  `this.notifyObservers` (subscriber.ts line 43),
  `subscriberMiddleware.notifyObservers` (line 57),
  `middleware.notifyObservers` (line 163) and `this.notifyObservers`
  (subscriber_middleware.ts line 38) as plain function values, without
  `.bind`.  Class bodies are strict-mode code, so when user code later
  invokes such a value as a bare function the call-time `this` is
  `undefined` and the first property access inside `notifyObservers`
  throws a `TypeError`.  Both `notifyObservers` bodies are therefore
  modelled with an explicit `hasThis` receiver flag, and a sink call made
  by user code aborts that user function with a (caught) error before any
  engine state changes.
* Engine effects that the claims observe (invocations of the user fetch and
  stop functions, middleware invocations, observer deliveries, caught
  errors, cache expiry, timer scheduling) are recorded in an event trace.
-/

namespace EasyHooks

/-- Identity of a middleware class (the transform identity used as map key). -/
abbrev TransformId := Nat

/-- Identity of one consumer (the `uniqueId` produced by `useId`). -/
abbrev ConsumerId := Nat

/-- RawCache: the `{ data, errorData }` pair; `none` models `null`. -/
structure RawCache where
  data : Option Nat
  errorData : Option Nat
deriving DecidableEq, Repr

/-- Observable behaviour of a user-supplied `observerFunctionMiddleware`:
the sink calls it attempts for a given input pair, and whether it throws
after them. -/
structure MwBehavior where
  sinkCalls : Option Nat → Option Nat → List (Option Nat × Option Nat)
  throws : Option Nat → Option Nat → Bool

/-- Environment of user-supplied code surrounding the engine. -/
structure Env where
  behs : TransformId → MwBehavior
  fetchAttemptsNotify : Bool
  fetchThrows : Bool
  stopThrows : Bool
  obsThrows : ConsumerId → Option Nat → Option Nat → Bool

/-- State of one `SubscriberMiddleware` instance
(subscriber_middleware.ts lines 14-26).  `observerFunctionMap` is the
insertion-ordered key list of the observer registry; the callback values
live in `Env.obsThrows`. -/
structure SubscriberMiddleware where
  currentDataCache : RawCache
  cacheEpired : Bool
  instanceInitialized : Bool
  observerFunctionMap : List ConsumerId
deriving DecidableEq, Repr

/-- State of one `Subscriber` (subscriber.ts lines 12-25).
`activeSubscriberMiddleware` holds references (transform ids) into
`subscriberMiddlewares`, modelling the object aliasing of the two maps.
`options` is the optional `cacheTTLInMilliseconds`. -/
structure Subscriber where
  parameters : String
  currentDataCache : RawCache
  cacheEpired : Bool
  subscriberMiddlewares : List (TransformId × SubscriberMiddleware)
  activeSubscriberMiddleware : List TransformId
  options : Option Nat
deriving DecidableEq, Repr

/-- Event trace entries observed during engine execution. -/
inductive Event where
  | fetchStart
  | stopCall
  | mwInvoke (t : TransformId)
  | deliver (c : ConsumerId) (d e : Option Nat)
  | caughtError
  | expireNow
  | timerScheduled (delay : Nat)
deriving DecidableEq, Repr

/-- Semantics of `Map.set` on the key list: keep position when present,
append when fresh. -/
def insertKey (k : Nat) (l : List Nat) : List Nat :=
  if k ∈ l then l else l ++ [k]

/-- Lookup in the middleware registry (association list on transform id). -/
def findMw (t : TransformId) :
    List (TransformId × SubscriberMiddleware) → Option SubscriberMiddleware
  | [] => none
  | p :: rest => if p.1 = t then some p.2 else findMw t rest

/-- Update one middleware instance in place (object mutation through the
shared reference). -/
def updateMw (t : TransformId) (f : SubscriberMiddleware → SubscriberMiddleware) :
    List (TransformId × SubscriberMiddleware) → List (TransformId × SubscriberMiddleware)
  | [] => []
  | p :: rest => (if p.1 = t then (p.1, f p.2) else p) :: updateMw t f rest

/-- Whether running a user transform on `(d, e)` ends in a thrown error.
The sink the engine passes is always the unbound `notifyObservers` method
reference, so the first sink call the transform makes throws a `TypeError`
inside the transform body; a transform that makes at least one sink call
therefore always aborts, and never changes any engine state. -/
def MwBehavior.aborts (b : MwBehavior) (d e : Option Nat) : Bool :=
  !(b.sinkCalls d e).isEmpty || b.throws d e

/-- Events produced by invoking middleware `t`'s user transform on `(d, e)`
inside one of the engine's try/catch boundaries. -/
def transformEvents (env : Env) (t : TransformId) (d e : Option Nat) : List Event :=
  Event.mwInvoke t :: (if (env.behs t).aborts d e then [Event.caughtError] else [])

/-- Construction of a `SubscriberMiddleware` (subscriber_middleware.ts lines
28-47): fields are initialised (`cacheEpired = true`,
`instanceInitialized = false`), the user transform is run once against the
subscriber's current raw cache with the unbound sink `this.notifyObservers`
inside a try/catch, then `instanceInitialized` is set to `true`.  Because
the sink is unbound, a transform that calls it throws before mutating the
instance, so the fields keep their initial values. -/
def constructMw (env : Env) (t : TransformId) (cache : RawCache) :
    SubscriberMiddleware × List Event :=
  (⟨⟨none, none⟩, true, true, []⟩, transformEvents env t cache.data cache.errorData)

/-- Subscriber.registerMiddleware (subscriber.ts lines 124-134): idempotent
registration keyed by the middleware class. -/
def Subscriber.registerMiddleware (env : Env) (t : TransformId) (s : Subscriber) :
    Subscriber × List Event :=
  match findMw t s.subscriberMiddlewares with
  | some _ => (s, [])
  | none =>
    let r := constructMw env t s.currentDataCache
    ({ s with subscriberMiddlewares := s.subscriberMiddlewares ++ [(t, r.1)] }, r.2)

/-- Events of the first-subscribe fetch trigger: the user fetch is invoked;
if it throws, or makes a bare call on the unbound callback (which throws a
`TypeError` inside the fetch body), the error is caught at subscriber.ts
lines 44-47. -/
def fetchStartEvents (env : Env) : List Event :=
  Event.fetchStart ::
    (if env.fetchThrows || env.fetchAttemptsNotify then [Event.caughtError] else [])

/-- Subscriber.subscribe (subscriber.ts lines 30-65): insert into the active
map; on active-size 1 invoke the user fetch (with the unbound
`this.notifyObservers` as callback) inside a try/catch; otherwise, if the
joining middleware's cache is expired, replay the subscriber's current raw
cache through its transform (with the unbound sink) inside a try/catch. -/
def Subscriber.subscribe (env : Env) (t : TransformId) (s : Subscriber) :
    Subscriber × List Event :=
  let s' := { s with activeSubscriberMiddleware := insertKey t s.activeSubscriberMiddleware }
  if s'.activeSubscriberMiddleware.length = 1 then
    (s', fetchStartEvents env)
  else
    match findMw t s'.subscriberMiddlewares with
    | some mw =>
      if mw.cacheEpired then
        (s', transformEvents env t s'.currentDataCache.data s'.currentDataCache.errorData)
      else (s', [])
    | none => (s', [])

/-- Subscriber.expireCache (subscriber.ts lines 114-119): null the raw cache
and every registered middleware's compressed cache, synchronously. -/
def Subscriber.expireCache (s : Subscriber) : Subscriber × List Event :=
  ({ s with
      currentDataCache := ⟨none, none⟩,
      subscriberMiddlewares := s.subscriberMiddlewares.map
        (fun p => (p.1, { p.2 with currentDataCache := ⟨none, none⟩ })) },
    [Event.expireNow])

/-- Subscriber.unsubscribe (subscriber.ts lines 76-108): delete from the
active map; when it becomes empty, invoke the user stop function and then
run the cache retention logic: with `cacheTTLInMilliseconds` configured the
cache is expired immediately; without it, `cacheEpired` is set and a timer
is scheduled with delay `this.options.cacheTTLInMilliseconds`, which in that
branch is necessarily `undefined` and hence a delay of 0.  A throwing stop
function skips the retention logic (caught). -/
def Subscriber.unsubscribe (env : Env) (t : TransformId) (s : Subscriber) :
    Subscriber × List Event :=
  let s' := { s with activeSubscriberMiddleware := s.activeSubscriberMiddleware.erase t }
  if s'.activeSubscriberMiddleware.length = 0 then
    if env.stopThrows then (s', [Event.stopCall, Event.caughtError])
    else
      match s'.options with
      | some _ =>
        let r := s'.expireCache
        (r.1, Event.stopCall :: r.2)
      | none =>
        ({ s' with cacheEpired := true }, [Event.stopCall, Event.timerScheduled 0])
  else (s', [])

/-- Events of the fan-out loop of Subscriber.notifyObservers (subscriber.ts
lines 160-168): every active middleware's transform is invoked in insertion
order with the notified pair and the unbound sink, each call inside its own
try/catch.  No middleware state changes (the sink is unbound, see
`MwBehavior.aborts`). -/
def fanoutEvents (env : Env) (d e : Option Nat)
    (ms : List (TransformId × SubscriberMiddleware)) : List TransformId → List Event
  | [] => []
  | t :: rest =>
    (match findMw t ms with
     | some _ => transformEvents env t d e
     | none => []) ++ fanoutEvents env d e ms rest

/-- Subscriber.notifyObservers (subscriber.ts lines 154-169), with the
call-time receiver made explicit.  Invoked with a receiver it clears
`cacheEpired` and fans out to every active middleware; it never writes
`currentDataCache`.  Invoked without a receiver (the bare call a user fetch
makes on the unbound reference passed at line 43) the first statement
`if (this.cacheEpired)` throws a `TypeError` before touching the
subscriber; the third component reports whether the call threw. -/
def Subscriber.notifyObservers (env : Env) (hasThis : Bool) (s : Subscriber)
    (d e : Option Nat) : Subscriber × List Event × Bool :=
  if hasThis then
    ({ s with cacheEpired := false },
      fanoutEvents env d e s.subscriberMiddlewares s.activeSubscriberMiddleware, false)
  else (s, [], true)

/-- SubscriberMiddleware.subscribe (subscriber_middleware.ts lines 75-89):
register the observer callback; when the observer map size becomes 1,
delegate to Subscriber.subscribe.  Operates on the whole subscriber because
the middleware instance is aliased inside its registry. -/
def SubscriberMiddleware.subscribe (env : Env) (t : TransformId) (c : ConsumerId)
    (s : Subscriber) : Subscriber × List Event :=
  match findMw t s.subscriberMiddlewares with
  | none => (s, [])
  | some mw =>
    let obs := insertKey c mw.observerFunctionMap
    let ms := updateMw t (fun m => { m with observerFunctionMap := obs }) s.subscriberMiddlewares
    let s' := { s with subscriberMiddlewares := ms }
    if obs.length = 1 then Subscriber.subscribe env t s' else (s', [])

/-- SubscriberMiddleware.unsubscribe (subscriber_middleware.ts lines
91-105): delete the observer, mark this middleware's cache expired; when the
observer map becomes empty, delegate to Subscriber.unsubscribe. -/
def SubscriberMiddleware.unsubscribe (env : Env) (t : TransformId) (c : ConsumerId)
    (s : Subscriber) : Subscriber × List Event :=
  match findMw t s.subscriberMiddlewares with
  | none => (s, [])
  | some mw =>
    let obs := mw.observerFunctionMap.erase c
    let ms := updateMw t (fun m => { m with observerFunctionMap := obs, cacheEpired := true })
      s.subscriberMiddlewares
    let s' := { s with subscriberMiddlewares := ms }
    if obs.length = 0 then Subscriber.unsubscribe env t s' else (s', [])

/-- Delivery loop of SubscriberMiddleware.notifyObservers
(subscriber_middleware.ts lines 64-68): observers are invoked in insertion
order with no try/catch around the callback, so a throwing observer aborts
the loop; the boolean reports whether the loop threw. -/
def deliverLoop (env : Env) (d e : Option Nat) : List ConsumerId → List Event × Bool
  | [] => ([], false)
  | c :: rest =>
    if env.obsThrows c d e then ([Event.deliver c d e], true)
    else
      let r := deliverLoop env d e rest
      (Event.deliver c d e :: r.1, r.2)

/-- SubscriberMiddleware.notifyObservers (subscriber_middleware.ts lines
57-69), with the call-time receiver made explicit.  With a receiver it
writes the compressed cache, clears `cacheEpired`, and — when
`instanceInitialized` — delivers to every observer in order, with no
per-observer failure boundary.  Without a receiver (the bare call user code
makes on the unbound sink) the first statement
`this.currentDataCache = ...` throws a `TypeError` before any effect. -/
def SubscriberMiddleware.notifyObservers (env : Env) (hasThis : Bool)
    (mw : SubscriberMiddleware) (d e : Option Nat) :
    SubscriberMiddleware × List Event × Bool :=
  if hasThis then
    let mw' := { mw with currentDataCache := ⟨d, e⟩, cacheEpired := false }
    if mw.instanceInitialized then
      let r := deliverLoop env d e mw.observerFunctionMap
      (mw', r.1, r.2)
    else (mw', [], false)
  else (mw, [], true)

/-- Receiver that the callback passed to the user fetch function sees when
invoked as a bare function: subscriber.ts line 43 passes
`this.notifyObservers` without `.bind(this)`, so the call-time `this` is
`undefined`. -/
def fetchCallbackHasReceiver : Bool := false

/-- Operations a scenario can perform on one subscriber (one key). -/
inductive Op where
  | register (t : TransformId)
  | attach (t : TransformId) (c : ConsumerId)
  | detach (t : TransformId) (c : ConsumerId)
  | rawNotify (d e : Option Nat)
deriving DecidableEq, Repr

/-- One scenario step.  `attach`/`detach` are the consumer lifecycle calls
(SubscriberMiddleware.subscribe/unsubscribe); `register` is
Subscriber.registerMiddleware; `rawNotify` is a proper method call of
Subscriber.notifyObservers (receiver present), as the user fetch is
documented to perform. -/
def step (env : Env) (s : Subscriber) : Op → Subscriber × List Event
  | Op.register t => s.registerMiddleware env t
  | Op.attach t c => SubscriberMiddleware.subscribe env t c s
  | Op.detach t c => SubscriberMiddleware.unsubscribe env t c s
  | Op.rawNotify d e =>
    let r := Subscriber.notifyObservers env true s d e
    (r.1, r.2.1)

/-- Run a list of operations, accumulating the event trace. -/
def run (env : Env) (s : Subscriber) : List Op → Subscriber × List Event
  | [] => (s, [])
  | op :: rest =>
    let r := step env s op
    let r' := run env r.1 rest
    (r'.1, r.2 ++ r'.2)

/-- A fresh subscriber for `key` (the constructor, subscriber.ts lines
22-25), with the given `cacheTTLInMilliseconds` option. -/
def initSubscriber (key : String) (ttl : Option Nat) : Subscriber :=
  ⟨key, ⟨none, none⟩, false, [], [], ttl⟩

/-- Transform that never calls the sink and never throws. -/
def quietBehavior : MwBehavior := ⟨fun _ _ => [], fun _ _ => false⟩

/-- Transform that forwards the raw pair into the sink unchanged (the shape
of `HookMiddleware` in hook_generators/generate_hook.ts). -/
def forwardBehavior : MwBehavior := ⟨fun d e => [(d, e)], fun _ _ => false⟩

/-- Transform that throws without calling the sink. -/
def throwingBehavior : MwBehavior := ⟨fun _ _ => [], fun _ _ => true⟩

/-- Environment in which all user code is quiet: transforms suppress
notification, the fetch and stop functions do not notify synchronously and
do not throw, observers do not throw. -/
def quietEnv : Env := ⟨fun _ => quietBehavior, false, false, false, fun _ _ _ => false⟩

/-- Configuration captured by the `generatePeriodicHook` closure
(periodic_hook.ts lines 19-41): the base `interval` and the raw option
fields.  `errorIntervalOpt` is `number | number[]` when present. -/
structure PeriodicConfig where
  interval : Nat
  shouldRetryOnErrorOpt : Option Bool
  errorIntervalOpt : Option (Sum Nat (List Nat))
  maximumRetryCountOpt : Option Nat
  displayErrOpt : Option Nat
deriving DecidableEq, Repr

/-- Derived constant `shouldRetryOnError` (periodic_hook.ts line 34):
`options?.shouldRetryOnError ?? true`. -/
def PeriodicConfig.shouldRetryOnError (c : PeriodicConfig) : Bool :=
  c.shouldRetryOnErrorOpt.getD true

/-- Derived constant `errorInterval` (periodic_hook.ts line 36): the option
when it is a single number, the base `interval` otherwise. -/
def PeriodicConfig.errorInterval (c : PeriodicConfig) : Nat :=
  match c.errorIntervalOpt with
  | some (Sum.inl n) => n
  | _ => c.interval

/-- Derived constant `errorIntervalArray` (periodic_hook.ts line 37): the
option when it is an array, `[]` otherwise. -/
def PeriodicConfig.errorIntervalArray (c : PeriodicConfig) : List Nat :=
  match c.errorIntervalOpt with
  | some (Sum.inr l) => l
  | _ => []

/-- Result of one `timeoutWrapper` invocation: the retry counter after the
call, the notifications the wrapper itself issued, and the delay of the
`setTimeout` it registered (if any). -/
structure WrapperStep where
  retryCount : Nat
  notified : List (Option Nat × Option Nat)
  scheduled : Option Nat
deriving DecidableEq, Repr

/-- One invocation of `timeoutWrapper` (periodic_hook.ts lines 43-80), as a
function of the current retry counter and whether the awaited user fetch
threw.  On success the counter resets and the next run is scheduled after
`interval`.  On failure with `shouldRetryOnError` true the counter is
incremented; if a maximum retry count is configured and reached, the wrapper
notifies `(null, displayThisErrorDataIfMaximumRetryCountIsReached)` when
that value is configured (nothing otherwise) and returns without
scheduling; otherwise the next delay is
`errorIntervalArray[retryCount - 1] ?? errorInterval` (the nullish fallback
applies when the index is out of bounds).  On failure with
`shouldRetryOnError` false the catch block does nothing and control falls
through to the trailing `setTimeout(..., interval)` at line 77. -/
def timeoutWrapper (cfg : PeriodicConfig) (retryCount : Nat) (fetchFails : Bool) :
    WrapperStep :=
  if !fetchFails then ⟨0, [], some cfg.interval⟩
  else if cfg.shouldRetryOnError then
    let rc := retryCount + 1
    let reached : Bool := match cfg.maximumRetryCountOpt with
      | some m => decide (rc ≥ m)
      | none => false
    if reached then
      match cfg.displayErrOpt with
      | some v => ⟨rc, [(none, some v)], none⟩
      | none => ⟨rc, [], none⟩
    else ⟨rc, [], some (cfg.errorIntervalArray.getD (rc - 1) cfg.errorInterval)⟩
  else ⟨retryCount, [], some cfg.interval⟩

/-- Delays scheduled by `n` consecutive failing invocations of
`timeoutWrapper` starting from retry counter `rc`; a `none` entry records a
run that scheduled nothing, after which no further run is triggered by the
wrapper itself. -/
def failureDelays (cfg : PeriodicConfig) (rc : Nat) : Nat → List (Option Nat)
  | 0 => []
  | n + 1 =>
    let st := timeoutWrapper cfg rc true
    st.scheduled ::
      (match st.scheduled with
       | none => []
       | some _ => failureDelays cfg st.retryCount n)

/-- Number of occurrences of one event in a trace. -/
def countE (ev : Event) : List Event → Nat
  | [] => 0
  | e :: rest => (if e = ev then 1 else 0) + countE ev rest

/-- Environment for the late-join scenario: transform 2 is a forwarding
middleware (it passes the raw pair to its sink), every other transform is
quiet. -/
def envC3 : Env :=
  { quietEnv with behs := fun t => if t = 2 then forwardBehavior else quietBehavior }

/-- Environment in which consumer 1's observer callback throws on delivery
and every other observer returns normally. -/
def envC9 : Env :=
  { quietEnv with obsThrows := fun c _ _ => decide (c = 1) }

/-- Subscriber state right after `registerMiddleware t` on a fresh
subscriber: one registered middleware (post-construction fields), nothing
active yet. -/
def subAfterReg (key : String) (ttl : Option Nat) (t : TransformId) : Subscriber :=
  ⟨key, ⟨none, none⟩, false, [(t, ⟨⟨none, none⟩, true, true, []⟩)], [], ttl⟩

/-- Subscriber state while transform `t` is live with observer list `obs`:
the single registered middleware holds `obs` and is the only active one. -/
def midState (key : String) (ttl : Option Nat) (t : TransformId)
    (obs : List ConsumerId) : Subscriber :=
  ⟨key, ⟨none, none⟩, false, [(t, ⟨⟨none, none⟩, true, true, obs⟩)], [t], ttl⟩

theorem countE_append (ev : Event) (l1 l2 : List Event) :
    countE ev (l1 ++ l2) = countE ev l1 + countE ev l2 := by
  induction l1 with
  | nil => simp [countE]
  | cons a as ih => simp [countE, ih, Nat.add_assoc]

theorem countE_fetch_transformEvents (env : Env) (t : TransformId) (d e : Option Nat) :
    countE Event.fetchStart (transformEvents env t d e) = 0 := by
  cases h : (env.behs t).aborts d e <;> simp [transformEvents, h, countE]

theorem countE_stop_transformEvents (env : Env) (t : TransformId) (d e : Option Nat) :
    countE Event.stopCall (transformEvents env t d e) = 0 := by
  cases h : (env.behs t).aborts d e <;> simp [transformEvents, h, countE]

theorem countE_fetch_fetchStartEvents (env : Env) :
    countE Event.fetchStart (fetchStartEvents env) = 1 := by
  cases h : env.fetchThrows || env.fetchAttemptsNotify <;> simp [fetchStartEvents, h, countE]

theorem countE_stop_fetchStartEvents (env : Env) :
    countE Event.stopCall (fetchStartEvents env) = 0 := by
  cases h : env.fetchThrows || env.fetchAttemptsNotify <;> simp [fetchStartEvents, h, countE]

theorem run_cons (env : Env) (s : Subscriber) (op : Op) (rest : List Op) :
    run env s (op :: rest) =
      ((run env (step env s op).1 rest).1,
        (step env s op).2 ++ (run env (step env s op).1 rest).2) := rfl

theorem run_eq_of_step {env : Env} {s : Subscriber} {op : Op} {s1 : Subscriber}
    {e1 : List Event} (rest : List Op) (h : step env s op = (s1, e1)) :
    run env s (op :: rest) = ((run env s1 rest).1, e1 ++ (run env s1 rest).2) := by
  simp [run, h]

theorem step_register_fresh (env : Env) (key : String) (ttl : Option Nat) (t : TransformId) :
    step env (initSubscriber key ttl) (Op.register t) =
      (subAfterReg key ttl t, transformEvents env t none none) := rfl

theorem step_first_attach (env : Env) (key : String) (ttl : Option Nat)
    (t : TransformId) (c : ConsumerId) :
    step env (subAfterReg key ttl t) (Op.attach t c) =
      (midState key ttl t [c], fetchStartEvents env) := by
  simp [step, SubscriberMiddleware.subscribe, findMw, insertKey, updateMw,
    Subscriber.subscribe, subAfterReg, midState]

theorem step_attach_noop (env : Env) (key : String) (ttl : Option Nat) (t : TransformId)
    (obs : List ConsumerId) (c : ConsumerId) (hne : obs ≠ []) (hc : c ∉ obs) :
    step env (midState key ttl t obs) (Op.attach t c) =
      (midState key ttl t (obs ++ [c]), []) := by
  simp [step, SubscriberMiddleware.subscribe, findMw, insertKey, updateMw, midState, hc, hne]

theorem run_attach_noop (env : Env) (key : String) (ttl : Option Nat) (t : TransformId)
    (rest : List ConsumerId) (obs : List ConsumerId)
    (hne : obs ≠ []) (hnd : rest.Nodup) (hdisj : ∀ x ∈ rest, x ∉ obs) :
    run env (midState key ttl t obs) (rest.map (Op.attach t)) =
      (midState key ttl t (obs ++ rest), []) := by
  induction rest generalizing obs with
  | nil => simp [run]
  | cons a as ih =>
    rw [List.map_cons, run_cons,
      step_attach_noop env key ttl t obs a hne (hdisj a (List.mem_cons_self a as))]
    have hnd' : as.Nodup := hnd.of_cons
    have hdisj' : ∀ x ∈ as, x ∉ obs ++ [a] := by
      intro x hx
      simp only [List.mem_append, List.mem_singleton]
      rintro (h | h)
      · exact hdisj x (List.mem_cons_of_mem a hx) h
      · exact (List.nodup_cons.mp hnd).1 (h ▸ hx)
    rw [ih (obs ++ [a]) (by simp) hnd' hdisj']
    simp

theorem step_detach_noop (env : Env) (key : String) (ttl : Option Nat) (t : TransformId)
    (obs : List ConsumerId) (c : ConsumerId) (hne : obs.erase c ≠ []) :
    step env (midState key ttl t obs) (Op.detach t c) =
      (midState key ttl t (obs.erase c), []) := by
  simp [step, SubscriberMiddleware.unsubscribe, findMw, updateMw, midState,
    List.length_eq_zero, hne]

theorem step_detach_last_count (env : Env) (key : String) (ttl : Option Nat)
    (t : TransformId) (obs : List ConsumerId) (c : ConsumerId) (hlast : obs.erase c = []) :
    countE Event.stopCall (step env (midState key ttl t obs) (Op.detach t c)).2 = 1 := by
  cases hst : env.stopThrows <;> cases ttl <;>
    simp [step, SubscriberMiddleware.unsubscribe, findMw, updateMw, midState, hlast,
      Subscriber.unsubscribe, Subscriber.expireCache, hst, countE]

/-- Claim C1: for every key and transform identity, when N >= 1 distinct
consumers attach to that key with that same transform before any detaches,
the user fetch function is invoked exactly once, on the 0-to-1 transition of
the observer count (the second conjunct shows the single fetch already
happened at the first attach; the first shows later attaches add none). -/
theorem dedup_fetch_invoked_once (env : Env) (key : String) (ttl : Option Nat)
    (t : TransformId) (c : ConsumerId) (rest : List ConsumerId)
    (hnd : (c :: rest).Nodup) :
    countE Event.fetchStart
      (run env (initSubscriber key ttl)
        (Op.register t :: Op.attach t c :: rest.map (Op.attach t))).2 = 1 ∧
    countE Event.fetchStart
      (run env (initSubscriber key ttl) [Op.register t, Op.attach t c]).2 = 1 := by
  have hnd' : rest.Nodup := hnd.of_cons
  have hdisj : ∀ x ∈ rest, x ∉ [c] := by
    intro x hx
    simp only [List.mem_singleton]
    intro h
    exact (List.nodup_cons.mp hnd).1 (h ▸ hx)
  constructor
  · rw [run_cons, step_register_fresh, run_cons]
    simp only [step_first_attach,
      run_attach_noop env key ttl t rest [c] (by simp) hnd' hdisj, countE_append]
    rw [countE_fetch_transformEvents, countE_fetch_fetchStartEvents]
    simp [countE]
  · rw [run_cons, step_register_fresh, run_cons]
    simp only [step_first_attach, run, countE_append]
    rw [countE_fetch_transformEvents, countE_fetch_fetchStartEvents]
    simp [countE]

/-- Witness for C1 at key "k", transform 0, consumers 0, 1, 2. -/
theorem dedup_fetch_invoked_once_witness :
    countE Event.fetchStart
      (run quietEnv (initSubscriber "k" none)
        (Op.register 0 :: Op.attach 0 0 :: [1, 2].map (Op.attach 0))).2 = 1 ∧
    countE Event.fetchStart
      (run quietEnv (initSubscriber "k" none) [Op.register 0, Op.attach 0 0]).2 = 1 :=
  dedup_fetch_invoked_once quietEnv "k" none 0 0 [1, 2] (by decide)

/-- Claim C2: with a single notifier on a key, after three distinct
consumers attach and two of them detach the user stop function has not been
called; after the remaining third consumer detaches it has been called
exactly once. -/
theorem stop_called_once_after_last_detach (env : Env) (key : String) (ttl : Option Nat)
    (t : TransformId) (x y z d1 d2 d3 : ConsumerId)
    (hnd : [x, y, z].Nodup)
    (h1 : d1 ∈ [x, y, z]) (h2 : d2 ∈ [x, y, z]) (h3 : d3 ∈ [x, y, z])
    (h12 : d1 ≠ d2) (h13 : d1 ≠ d3) (h23 : d2 ≠ d3) :
    countE Event.stopCall
      (run env (initSubscriber key ttl)
        [Op.register t, Op.attach t x, Op.attach t y, Op.attach t z,
         Op.detach t d1, Op.detach t d2]).2 = 0 ∧
    countE Event.stopCall
      (run env (initSubscriber key ttl)
        [Op.register t, Op.attach t x, Op.attach t y, Op.attach t z,
         Op.detach t d1, Op.detach t d2, Op.detach t d3]).2 = 1 := by
  obtain ⟨⟨hxy, hxz⟩, hyz⟩ : (¬x = y ∧ ¬x = z) ∧ ¬y = z := by
    simpa [List.nodup_cons, not_or] using hnd
  have hy : (y : ConsumerId) ∉ [x] := by simp [Ne.symm hxy]
  have hz : (z : ConsumerId) ∉ [x, y] := by simp [Ne.symm hxz, Ne.symm hyz]
  have e1 : ([x, y, z].erase d1).length = 2 := by
    rw [List.length_erase_of_mem h1]; simp
  have hne1 : [x, y, z].erase d1 ≠ [] := by
    intro h
    rw [h] at e1
    exact absurd e1 (by decide)
  have h2' : d2 ∈ [x, y, z].erase d1 := (List.mem_erase_of_ne (Ne.symm h12)).mpr h2
  have e2 : (([x, y, z].erase d1).erase d2).length = 1 := by
    rw [List.length_erase_of_mem h2', e1]
  have hne2 : ([x, y, z].erase d1).erase d2 ≠ [] := by
    intro h
    rw [h] at e2
    exact absurd e2 (by decide)
  have h3' : d3 ∈ ([x, y, z].erase d1).erase d2 :=
    (List.mem_erase_of_ne (Ne.symm h23)).mpr ((List.mem_erase_of_ne (Ne.symm h13)).mpr h3)
  have e3 : ((([x, y, z].erase d1).erase d2).erase d3).length = 0 := by
    rw [List.length_erase_of_mem h3', e2]
  have hlast : (([x, y, z].erase d1).erase d2).erase d3 = [] :=
    List.length_eq_zero.mp e3
  constructor
  · rw [run_eq_of_step _ (step_register_fresh env key ttl t),
      run_eq_of_step _ (step_first_attach env key ttl t x),
      run_eq_of_step _ (step_attach_noop env key ttl t [x] y (by simp) hy)]
    simp only [List.cons_append, List.nil_append]
    rw [run_eq_of_step _ (step_attach_noop env key ttl t [x, y] z (by simp) hz)]
    simp only [List.cons_append, List.nil_append]
    rw [run_eq_of_step _ (step_detach_noop env key ttl t [x, y, z] d1 hne1),
      run_eq_of_step _ (step_detach_noop env key ttl t ([x, y, z].erase d1) d2 hne2)]
    simp only [run, countE_append, countE_stop_transformEvents, countE_stop_fetchStartEvents]
    simp [countE]
  · rw [run_eq_of_step _ (step_register_fresh env key ttl t),
      run_eq_of_step _ (step_first_attach env key ttl t x),
      run_eq_of_step _ (step_attach_noop env key ttl t [x] y (by simp) hy)]
    simp only [List.cons_append, List.nil_append]
    rw [run_eq_of_step _ (step_attach_noop env key ttl t [x, y] z (by simp) hz)]
    simp only [List.cons_append, List.nil_append]
    rw [run_eq_of_step _ (step_detach_noop env key ttl t [x, y, z] d1 hne1),
      run_eq_of_step _ (step_detach_noop env key ttl t ([x, y, z].erase d1) d2 hne2)]
    simp only [run, countE_append, countE_stop_transformEvents, countE_stop_fetchStartEvents,
      step_detach_last_count env key ttl t (([x, y, z].erase d1).erase d2) d3 hlast]
    simp [countE]

/-- Witness for C2 at key "k", transform 0, consumers 0, 1, 2, detaching
consumers 1 and 2 and then the remaining consumer 0. -/
theorem stop_called_once_after_last_detach_witness :
    countE Event.stopCall
      (run quietEnv (initSubscriber "k" none)
        [Op.register 0, Op.attach 0 0, Op.attach 0 1, Op.attach 0 2,
         Op.detach 0 1, Op.detach 0 2]).2 = 0 ∧
    countE Event.stopCall
      (run quietEnv (initSubscriber "k" none)
        [Op.register 0, Op.attach 0 0, Op.attach 0 1, Op.attach 0 2,
         Op.detach 0 1, Op.detach 0 2, Op.detach 0 0]).2 = 1 :=
  stop_called_once_after_last_detach quietEnv "k" none 0 0 1 2 1 2 0
    (by decide) (by decide) (by decide) (by decide) (by decide) (by decide) (by decide)

/-- Claim C3 (refuted, code bug): consumer 10 attaches with transform 1,
then consumer 20 attaches with transform 2 (a forwarding middleware) while
the key is live.  The trace shows that no second fetch is triggered and that
the late-join replay does invoke transform 2 (the second `mwInvoke 2`), but
the replay ends in a caught `TypeError` — the sink passed at subscriber.ts
line 57 is the unbound `subscriberMiddleware.notifyObservers` — so no
`deliver` event ever occurs, and transform 2's compressed cache is still
null and still marked expired.  The late joiner never receives the cached
data, contrary to the claim. -/
theorem late_join_replay_delivers_nothing :
    (run envC3 (initSubscriber "k" none)
      [Op.register 1, Op.attach 1 10, Op.register 2, Op.attach 2 20]).2 =
      [Event.mwInvoke 1, Event.fetchStart, Event.mwInvoke 2, Event.caughtError,
       Event.mwInvoke 2, Event.caughtError] ∧
    findMw 2 (run envC3 (initSubscriber "k" none)
      [Op.register 1, Op.attach 1 10, Op.register 2, Op.attach 2 20]).1.subscriberMiddlewares =
      some ⟨⟨none, none⟩, true, true, [20]⟩ := by
  decide

/-- Claim C4 (refuted, code bug): after registering transform 0, attaching
and detaching consumer 5 (which sets `cacheEpired`), re-attaching, and then
invoking `notifyObservers (some 7) none` as a proper method call on the
subscriber, the raw cache still holds `{ data: null, errorData: null }` —
the body at subscriber.ts lines 154-169 never writes `currentDataCache` —
even though `cacheEpired` has been cleared as claimed. -/
theorem notify_does_not_write_raw_cache :
    (run quietEnv (initSubscriber "k" none)
      [Op.register 0, Op.attach 0 5, Op.detach 0 5, Op.attach 0 5,
       Op.rawNotify (some 7) none]).1.currentDataCache = ⟨none, none⟩ ∧
    (run quietEnv (initSubscriber "k" none)
      [Op.register 0, Op.attach 0 5, Op.detach 0 5, Op.attach 0 5,
       Op.rawNotify (some 7) none]).1.cacheEpired = false ∧
    (⟨none, none⟩ : RawCache) ≠ ⟨some 7, none⟩ := by
  decide

/-- Claim C5 (refuted): with `cacheTTLInMilliseconds = 100` configured, the
last detach runs `expireCache` synchronously in the same turn (the
`Event.expireNow` in the trace, with no timer scheduled), so the cache is
already cleared at any later re-attach time such as 50 ms; and the
re-attach is an active-set 0-to-1 transition, so it triggers a second
fetch. -/
theorem ttl_configured_expires_immediately_cex :
    (run quietEnv (initSubscriber "k" (some 100))
      [Op.register 0, Op.attach 0 1, Op.detach 0 1]).2 =
      [Event.mwInvoke 0, Event.fetchStart, Event.stopCall, Event.expireNow] ∧
    countE Event.fetchStart (run quietEnv (initSubscriber "k" (some 100))
      [Op.register 0, Op.attach 0 1, Op.detach 0 1, Op.attach 0 1]).2 = 2 := by
  decide

/-- Claim C5 as amended: for every configured retention duration `n`, the
last detach expires the caches immediately and synchronously (exactly one
`expireNow`, in the detach turn), and a subsequent re-attach triggers a new
fetch, because the active set transitions from 0 to 1 again. -/
theorem ttl_configured_amended (key : String) (n : Nat) :
    countE Event.expireNow (run quietEnv (initSubscriber key (some n))
      [Op.register 0, Op.attach 0 1, Op.detach 0 1]).2 = 1 ∧
    countE Event.fetchStart (run quietEnv (initSubscriber key (some n))
      [Op.register 0, Op.attach 0 1, Op.detach 0 1, Op.attach 0 1]).2 = 2 := by
  constructor <;>
    simp [run, step, Subscriber.registerMiddleware, findMw, constructMw,
      SubscriberMiddleware.subscribe, SubscriberMiddleware.unsubscribe, insertKey, updateMw,
      Subscriber.subscribe, Subscriber.unsubscribe, Subscriber.expireCache,
      transformEvents, fetchStartEvents, quietEnv, quietBehavior, MwBehavior.aborts,
      initSubscriber, countE]

/-- Claim C6 (refuted, code bug): with `errorInterval = [1000, 2000, 5000]`
and base `interval = 7000`, four consecutive failures schedule the delays
1000, 2000, 5000, 7000: once `retryCount - 1` runs past the end of the
array, `errorIntervalArray[retryCount - 1] ?? errorInterval` falls back to
the base interval (periodic_hook.ts line 66), not to the last array
element. -/
theorem backoff_falls_back_to_base_interval :
    failureDelays ⟨7000, none, some (Sum.inr [1000, 2000, 5000]), none, none⟩ 0 4 =
      [some 1000, some 2000, some 5000, some 7000] := by
  decide

/-- Claim C7 (refuted, code bug): with `shouldRetryOnError = false`, a fetch
failure still schedules another attempt after the base interval: the catch
block at periodic_hook.ts lines 50-74 does nothing when `shouldRetryOnError`
is false and control falls through to the unconditional
`setTimeout(..., interval)` at line 77. -/
theorem no_retry_still_schedules_interval :
    timeoutWrapper ⟨5000, some false, none, none, none⟩ 0 true =
      ⟨0, [], some 5000⟩ := by
  decide

/-- Claim C10 (refuted, code bug): the callback handed to the user fetch
function at subscriber.ts line 43 is the unbound method reference
`this.notifyObservers` (`fetchCallbackHasReceiver = false`), so a bare
invocation by the fetch function throws a `TypeError` and acts on no
subscriber: the state is unchanged (in particular `cacheEpired` is not
cleared) and no middleware is invoked — whereas the same body invoked with
its receiver would clear `cacheEpired`, as the last conjunct shows. -/
theorem fetch_callback_receiver_undefined (env : Env) (s : Subscriber) (d e : Option Nat) :
    (Subscriber.notifyObservers env fetchCallbackHasReceiver s d e).2.2 = true ∧
    (Subscriber.notifyObservers env fetchCallbackHasReceiver s d e).1 = s ∧
    (Subscriber.notifyObservers env fetchCallbackHasReceiver s d e).2.1 = [] ∧
    (Subscriber.notifyObservers env true s d e).1.cacheEpired = false :=
  ⟨rfl, rfl, rfl, rfl⟩

/-- Claim C8: when a maximum retry count is configured and the incremented
retry counter reaches it on a fetch failure (with retries enabled), the
wrapper delivers exactly one notification carrying the configured terminal
error value when one is configured and delivers nothing otherwise, and in
either case it schedules no further fetch attempt. -/
theorem max_retry_terminal (cfg : PeriodicConfig) (m rc : Nat)
    (hm : cfg.maximumRetryCountOpt = some m)
    (hs : cfg.shouldRetryOnError = true)
    (hr : m ≤ rc + 1) :
    (timeoutWrapper cfg rc true).scheduled = none ∧
    (timeoutWrapper cfg rc true).notified =
      (match cfg.displayErrOpt with
       | some v => [(none, some v)]
       | none => []) := by
  rcases hd : cfg.displayErrOpt with _ | v <;>
    simp [timeoutWrapper, hm, hs, hr, hd]

/-- Witness for C8 with `interval = 5000`, `maximumRetryCount = 2`, terminal
error value 9, at the second consecutive failure. -/
theorem max_retry_terminal_witness :
    (timeoutWrapper ⟨5000, none, none, some 2, some 9⟩ 1 true).scheduled = none ∧
    (timeoutWrapper ⟨5000, none, none, some 2, some 9⟩ 1 true).notified =
      [(none, some 9)] :=
  max_retry_terminal ⟨5000, none, none, some 2, some 9⟩ 2 1 rfl rfl (by decide)

/-- Claim C9 (refuted for the observer half): a middleware with observers
1 and 2 whose first observer callback throws: `notifyObservers` (invoked
with its receiver) delivers to observer 1 only, observer 2 is never
reached, and the exception escapes `notifyObservers` (third conjunct) —
there is no per-observer failure boundary at subscriber_middleware.ts lines
64-68. -/
theorem observer_throw_aborts_delivery_cex :
    (SubscriberMiddleware.notifyObservers envC9 true ⟨⟨none, none⟩, true, true, [1, 2]⟩
      (some 3) none).2.1 = [Event.deliver 1 (some 3) none] ∧
    Event.deliver 2 (some 3) none ∉
      (SubscriberMiddleware.notifyObservers envC9 true ⟨⟨none, none⟩, true, true, [1, 2]⟩
        (some 3) none).2.1 ∧
    (SubscriberMiddleware.notifyObservers envC9 true ⟨⟨none, none⟩, true, true, [1, 2]⟩
      (some 3) none).2.2 = true := by
  decide

theorem mwInvoke_mem_fanout (env : Env) (d e : Option Nat)
    (ms : List (TransformId × SubscriberMiddleware)) (t : TransformId)
    (mw : SubscriberMiddleware) (active : List TransformId)
    (ht : t ∈ active) (hfind : findMw t ms = some mw) :
    Event.mwInvoke t ∈ fanoutEvents env d e ms active := by
  induction active with
  | nil => cases ht
  | cons a as ih =>
    simp only [fanoutEvents]
    rcases List.mem_cons.mp ht with h | h
    · subst h
      simp [hfind, transformEvents]
    · exact List.mem_append_right _ (ih h)

/-- Claim C9 as amended: an exception thrown by a middleware transform
during the Subscriber's fan-out is contained at that transform's boundary —
every active registered middleware is still invoked (first conjunct, which
holds for arbitrary transform behaviour including throwing ones) — but an
exception thrown by an observer delivery callback is not contained: a
throwing first observer aborts delivery to all remaining observers of that
notifier and the exception escapes its `notifyObservers` (second
conjunct). -/
theorem fanout_containment_amended :
    (∀ (env : Env) (s : Subscriber) (d e : Option Nat) (t : TransformId)
        (mw : SubscriberMiddleware),
      t ∈ s.activeSubscriberMiddleware →
      findMw t s.subscriberMiddlewares = some mw →
      Event.mwInvoke t ∈ (Subscriber.notifyObservers env true s d e).2.1) ∧
    (∀ (env : Env) (mw : SubscriberMiddleware) (d e : Option Nat) (c : ConsumerId)
        (rest : List ConsumerId),
      mw.observerFunctionMap = c :: rest → mw.instanceInitialized = true →
      env.obsThrows c d e = true →
      (SubscriberMiddleware.notifyObservers env true mw d e).2.1 = [Event.deliver c d e] ∧
      (SubscriberMiddleware.notifyObservers env true mw d e).2.2 = true) := by
  constructor
  · intro env s d e t mw ht hfind
    simpa [Subscriber.notifyObservers] using
      mwInvoke_mem_fanout env d e s.subscriberMiddlewares t mw s.activeSubscriberMiddleware
        ht hfind
  · intro env mw d e c rest hobs hinit hthrow
    simp [SubscriberMiddleware.notifyObservers, hobs, hinit, deliverLoop, hthrow]

/-- Witness for C9 as amended: a subscriber with one active registered
transform 7 (its transform is invoked during fan-out), and a middleware
with observers 1 and 5 whose first observer throws (delivery stops after
observer 1 and the exception escapes). -/
theorem fanout_containment_amended_witness :
    Event.mwInvoke 7 ∈ (Subscriber.notifyObservers quietEnv true
      ⟨"k", ⟨none, none⟩, false, [(7, ⟨⟨none, none⟩, true, true, []⟩)], [7], none⟩
      (some 1) none).2.1 ∧
    (SubscriberMiddleware.notifyObservers envC9 true ⟨⟨none, none⟩, false, true, [1, 5]⟩
      (some 2) none).2.1 = [Event.deliver 1 (some 2) none] ∧
    (SubscriberMiddleware.notifyObservers envC9 true ⟨⟨none, none⟩, false, true, [1, 5]⟩
      (some 2) none).2.2 = true :=
  ⟨fanout_containment_amended.1 quietEnv
      ⟨"k", ⟨none, none⟩, false, [(7, ⟨⟨none, none⟩, true, true, []⟩)], [7], none⟩
      (some 1) none 7 ⟨⟨none, none⟩, true, true, []⟩ (by decide) rfl,
   (fanout_containment_amended.2 envC9 ⟨⟨none, none⟩, false, true, [1, 5]⟩
      (some 2) none 1 [5] rfl rfl (by decide)).1,
   (fanout_containment_amended.2 envC9 ⟨⟨none, none⟩, false, true, [1, 5]⟩
      (some 2) none 1 [5] rfl rfl (by decide)).2⟩

end EasyHooks
